import Mathlib

/-!
Shallow embedding of the SmartExam AI exam-paper generator
(`services/geminiService.ts`, reachable in this snapshot through
`src/components/Spinner.tsx`, plus the application shell in `src/unnamed/part_000`
and the record types of `src/types.ts`).

The core is `analyzeImagesAndGenerateQuestions`: base64-encode uploaded image
blobs, send one multimodal analysis request, then one text composition request,
with fixed prompt templates and a small error-mapping layer.  External effects
(the two Gemini calls, the `window.aistudio.openSelectKey` side effect, the
environment credential, FileReader outcomes) are modelled as explicit inputs,
and the requests the pipeline issues are recorded as an event trace.

JavaScript conventions carried over: a field of dynamic type `string` that may
be `undefined` at runtime is `Option String`; truthiness of a string is
"not the empty string"; truthiness of `Option String` is "present and not
empty".  Bytes are `Nat` values, meaningful below 256.
-/

namespace ExamGen

/-- `ExamSettings` from `src/types.ts`.  Counts are the non-negative integers
the UI produces (`min="0"` number inputs). -/
structure ExamSettings where
  topic : String
  className : String
  board : String
  studentName : String
  language : String
  totalMarks : Nat
  duration : Nat
  mcqCount : Nat
  shortCount : Nat
  longCount : Nat
deriving DecidableEq, Repr

/-- An uploaded image blob together with the outcome of reading it with a
`FileReader`: either the blob bytes (success) or an opaque raw read error. -/
structure FileBlob where
  type : String
  content : Except String (List Nat)
deriving Repr

/-- The `inlineData` payload of an encoded image part. -/
structure InlineData where
  mimeType : String
  data : String
deriving DecidableEq, Repr

/-- `ImagePart` from the service module. -/
structure ImagePart where
  inlineData : InlineData
deriving DecidableEq, Repr

/-! ## Base64 (the behaviour of `FileReader.readAsDataURL`)

`readAsDataURL` yields `data:<mime>;base64,<payload>` where `<payload>` is the
standard base64 transcription of the blob bytes.  We embed that encoding
directly; a decoder lets us state the round-trip property. -/

/-- The 64-character base64 alphabet. -/
def b64Alphabet : List Char :=
  "ABCDEFGHIJKLMNOPQRSTUVWXYZabcdefghijklmnopqrstuvwxyz0123456789+/".toList

/-- Character for a six-bit group (pad character for out-of-range input). -/
def b64Char (n : Nat) : Char := b64Alphabet.getD n '='

/-- Index of a character in the base64 alphabet. -/
def b64Val (c : Char) : Option Nat := b64Alphabet.findIdx? (fun x => x == c)

/-- Standard base64 encoding of a byte list, three bytes to four characters,
with `=` padding on a final short group. -/
def base64EncodeL : List Nat → List Char
  | [] => []
  | [a] => [b64Char (a / 4), b64Char (a % 4 * 16), '=', '=']
  | [a, b] => [b64Char (a / 4), b64Char (a % 4 * 16 + b / 16), b64Char (b % 16 * 4), '=']
  | a :: b :: c :: rest =>
      b64Char (a / 4) :: b64Char (a % 4 * 16 + b / 16) ::
      b64Char (b % 16 * 4 + c / 64) :: b64Char (c % 64) :: base64EncodeL rest

/-- Base64 decoding: four characters to three bytes, honouring `=` padding in
the final group only. -/
def base64DecodeL : List Char → Option (List Nat)
  | [] => some []
  | w :: x :: y :: z :: rest =>
      match b64Val w, b64Val x with
      | some a, some b =>
          if y = '=' then
            if z = '=' ∧ rest = [] then some [(a * 4 + b / 16)] else none
          else
            match b64Val y with
            | some c =>
                if z = '=' then
                  if rest = [] then some [(a * 4 + b / 16), (b % 16 * 16 + c / 4)] else none
                else
                  match b64Val z with
                  | some d =>
                      (base64DecodeL rest).map
                        (fun ds => (a * 4 + b / 16) :: (b % 16 * 16 + c / 4) :: (c % 4 * 64 + d) :: ds)
                  | none => none
            | none => none
      | _, _ => none
  | _ => none

theorem b64Val_b64Char : ∀ n, n < 64 → b64Val (b64Char n) = some n := by decide

theorem b64Char_ne_pad : ∀ n, n < 64 → b64Char n ≠ '=' := by decide

theorem b64Char_ne_comma_lt : ∀ n, n < 64 → b64Char n ≠ ',' := by decide

theorem b64Alphabet_length : b64Alphabet.length = 64 := by decide

theorem b64Char_of_ge (n : Nat) (h : 64 ≤ n) : b64Char n = '=' := by
  unfold b64Char
  apply List.getD_eq_default
  rw [b64Alphabet_length]
  omega

theorem b64Char_ne_comma (n : Nat) : b64Char n ≠ ',' := by
  by_cases h : n < 64
  · exact b64Char_ne_comma_lt n h
  · rw [b64Char_of_ge n (by omega)]
    decide

theorem comma_not_mem_base64EncodeL (bs : List Nat) : ',' ∉ base64EncodeL bs := by
  induction bs using base64EncodeL.induct with
  | case1 => simp [base64EncodeL]
  | case2 a =>
      simp only [base64EncodeL, List.mem_cons, List.not_mem_nil, or_false]
      push_neg
      exact ⟨(b64Char_ne_comma _).symm, (b64Char_ne_comma _).symm, by decide, by decide⟩
  | case3 a b =>
      simp only [base64EncodeL, List.mem_cons, List.not_mem_nil, or_false]
      push_neg
      exact ⟨(b64Char_ne_comma _).symm, (b64Char_ne_comma _).symm,
        (b64Char_ne_comma _).symm, by decide⟩
  | case4 a b c rest ih =>
      simp only [base64EncodeL, List.mem_cons]
      push_neg
      exact ⟨(b64Char_ne_comma _).symm, (b64Char_ne_comma _).symm,
        (b64Char_ne_comma _).symm, (b64Char_ne_comma _).symm, ih⟩

/-- Decoding inverts encoding on genuine byte lists. -/
theorem base64_decode_encode (bs : List Nat) (h : ∀ b ∈ bs, b < 256) :
    base64DecodeL (base64EncodeL bs) = some bs := by
  induction bs using base64EncodeL.induct with
  | case1 => rfl
  | case2 a =>
      have ha : a < 256 := h a (by simp)
      simp [base64EncodeL, base64DecodeL,
        b64Val_b64Char (a / 4) (by omega),
        b64Val_b64Char (a % 4 * 16) (by omega)]
      omega
  | case3 a b =>
      have ha : a < 256 := h a (by simp)
      have hb : b < 256 := h b (by simp)
      simp [base64EncodeL, base64DecodeL,
        b64Val_b64Char (a / 4) (by omega),
        b64Val_b64Char (a % 4 * 16 + b / 16) (by omega),
        b64Val_b64Char (b % 16 * 4) (by omega),
        b64Char_ne_pad (b % 16 * 4) (by omega)]
      omega
  | case4 a b c rest ih =>
      have ha : a < 256 := h a (by simp)
      have hb : b < 256 := h b (by simp)
      have hc : c < 256 := h c (by simp)
      have hrest : ∀ x ∈ rest, x < 256 := fun x hx => h x (by simp [hx])
      simp [base64EncodeL, base64DecodeL,
        b64Val_b64Char (a / 4) (by omega),
        b64Val_b64Char (a % 4 * 16 + b / 16) (by omega),
        b64Val_b64Char (b % 16 * 4 + c / 64) (by omega),
        b64Val_b64Char (c % 64) (by omega),
        b64Char_ne_pad (b % 16 * 4 + c / 64) (by omega),
        b64Char_ne_pad (c % 64) (by omega),
        ih hrest]
      omega

/-! ## The Image Encoder

Each file is read with `readAsDataURL`, the data-URL header is stripped with
`split(',')[1]`, and the payload is paired with the blob's MIME type.
`Promise.all` turns the batch into all-or-nothing. -/

/-- JavaScript's `split(',')` on a character list. -/
def splitOnComma : List Char → List (List Char)
  | [] => [[]]
  | c :: cs =>
      if c = ',' then [] :: splitOnComma cs
      else
        match splitOnComma cs with
        | [] => [[c]]
        | g :: gs => (c :: g) :: gs

theorem splitOnComma_no_comma (l : List Char) (h : ',' ∉ l) : splitOnComma l = [l] := by
  induction l with
  | nil => rfl
  | cons c cs ih =>
      have hc : c ≠ ',' := fun he => h (he ▸ List.mem_cons_self c cs)
      have hcs : ',' ∉ cs := fun hm => h (List.mem_cons_of_mem c hm)
      simp only [splitOnComma, if_neg hc, ih hcs]

theorem splitOnComma_append (a b : List Char) (h : ',' ∉ a) :
    splitOnComma (a ++ ',' :: b) = a :: splitOnComma b := by
  induction a with
  | nil => simp [splitOnComma]
  | cons c cs ih =>
      have hc : c ≠ ',' := fun he => h (he ▸ List.mem_cons_self c cs)
      have hcs : ',' ∉ cs := fun hm => h (List.mem_cons_of_mem c hm)
      simp only [List.cons_append, splitOnComma, if_neg hc, List.append_eq, ih hcs]

/-- The string `FileReader.readAsDataURL` produces for a successfully read
blob: `data:<mime>;base64,<payload>`. -/
def dataUrlChars (mime : String) (bytes : List Nat) : List Char :=
  "data:".toList ++ mime.toList ++ ";base64,".toList ++ base64EncodeL bytes

/-- One element of the `images.map(...)` callback in
`analyzeImagesAndGenerateQuestions`: await the read, take `split(',')[1]` of
the data URL as `data`, and use `file.type` as `mimeType`. -/
def encodeOneImage (f : FileBlob) : Except String ImagePart :=
  match f.content with
  | .error e => .error e
  | .ok bytes =>
      let base64 := String.mk ((splitOnComma (dataUrlChars f.type bytes)).getD 1 [])
      .ok { inlineData := { mimeType := f.type, data := base64 } }

/-- `await Promise.all(images.map(...))`: every encoding, or the first read
error with no partial list. -/
def encodeImages : List FileBlob → Except String (List ImagePart)
  | [] => .ok []
  | f :: fs =>
      match encodeOneImage f with
      | .error e => .error e
      | .ok p =>
          match encodeImages fs with
          | .error e => .error e
          | .ok ps => .ok (p :: ps)

/-- The first read error in the batch, if any blob failed to read. -/
def firstReadError : List FileBlob → Option String
  | [] => none
  | f :: fs =>
      match f.content with
      | .error e => some e
      | .ok _ => firstReadError fs

theorem dataUrlChars_decomp (mime : String) (bytes : List Nat) :
    dataUrlChars mime bytes =
      ("data:".toList ++ mime.toList ++ ";base64".toList) ++ ',' :: base64EncodeL bytes := by
  have h : ";base64,".toList = ";base64".toList ++ [','] := by decide
  simp [dataUrlChars, h, List.append_assoc]

theorem encodeOneImage_ok (f : FileBlob) (bytes : List Nat)
    (hc : f.content = .ok bytes) (ht : ',' ∉ f.type.toList) :
    encodeOneImage f = .ok ⟨⟨f.type, String.mk (base64EncodeL bytes)⟩⟩ := by
  have hpre : ',' ∉ "data:".toList ++ f.type.toList ++ ";base64".toList := by
    simp only [List.mem_append, not_or]
    exact ⟨⟨by decide, ht⟩, by decide⟩
  simp only [encodeOneImage, hc]
  rw [dataUrlChars_decomp, splitOnComma_append _ _ hpre,
    splitOnComma_no_comma _ (comma_not_mem_base64EncodeL bytes)]
  rfl

/-! ## Prompt templates

The two template literals of the service module, with the interpolation
points of the source kept as `++` seams.  String escapes: `\x27` is the
apostrophe, `\n` the literal newlines of the backtick templates. -/

/-- The fixed analysis prompt built at `Spinner.tsx:59`. -/
def analysisPrompt (settings : ExamSettings) : String :=
  "You are an expert educator. Analyze the provided images of textbook pages and exercises. Identify the main subject, specific topic, key concepts, and common question formats (e.g., definitions, problem-solving, diagrams, true/false) relevant to generating an exam paper for Class "
  ++ settings.className ++ ", Board " ++ settings.board ++
  ". Return this information as a concise text summary of about 200 words, clearly stating the main topic and key areas covered."

/-- The composition prompt built at `Spinner.tsx:84`. -/
def generationPrompt (settings : ExamSettings) (analysisSummary : String) : String :=
  "Based on the following topic: \"" ++ settings.topic ++ "\", class \"" ++ settings.className
  ++ "\", board \"" ++ settings.board ++ "\", and the following analysis of textbook content: \""
  ++ analysisSummary
  ++ "\", generate an exam paper with the specified number of questions for each type.\n\n    **Instructions:**\n    1.  Generate "
  ++ ("exactly " ++ toString settings.mcqCount ++ " Multiple Choice Questions")
  ++ ". Each MCQ must have 4 distinct options (A, B, C, D) and explicitly state the correct answer at the end of the question (e.g., \x27Correct Answer: A\x27).\n    2.  Generate "
  ++ ("exactly " ++ toString settings.shortCount ++ " Short Answer Questions")
  ++ ".\n    3.  Generate "
  ++ ("exactly " ++ toString settings.longCount ++ " Long Answer Questions")
  ++ ".\n    4.  Ensure questions are relevant to the provided topic and insights, and are appropriate for the specified class and board.\n    5.  Format the output clearly, separating each question type with a heading.\n    6.  "
  ++ ("Use the specified language: " ++ settings.language)
  ++ ".\n\n    **Example Format:**\n    ## Multiple Choice Questions (MCQs)\n    1.  What is [concept A]?\n        A) Option 1\n        B) Option 2\n        C) Option 3\n        D) Option 4\n        Correct Answer: B\n\n    ## Short Answer Questions\n    1.  Explain [concept B].\n\n    ## Long Answer Questions\n    1.  Discuss [topic C] in detail.\n    "

/-- `pat` occurs as a contiguous substring of `s`. -/
def substrOf (pat s : String) : Prop :=
  ∃ pre post : List Char, s.toList = pre ++ pat.toList ++ post

/-! ## JavaScript string and truthiness helpers -/

/-- `pat` is an initial segment of `l`. -/
def leadsWith : List Char → List Char → Bool
  | [], _ => true
  | _ :: _, [] => false
  | p :: ps, c :: cs => p == c && leadsWith ps cs

/-- `pat` is an initial segment of some suffix of `l`. -/
def hasSegment (pat : List Char) : List Char → Bool
  | [] => leadsWith pat []
  | l@(_ :: cs) => leadsWith pat l || hasSegment pat cs

/-- JavaScript `s.includes(pat)`. -/
def strIncludes (s pat : String) : Bool := hasSegment pat.toList s.toList

/-- JavaScript truthiness of a possibly-`undefined` string: `undefined` and
the empty string are falsy. -/
def strFalsy : Option String → Bool
  | none => true
  | some s => s == ""

/-- `error.message && error.message.includes(pat)`, as a boolean. -/
def messageIncludes (message : Option String) (pat : String) : Bool :=
  match message with
  | none => false
  | some s => if s == "" then false else strIncludes s pat

/-- `message || fallback`. -/
def messageOr (message : Option String) (fallback : String) : String :=
  match message with
  | none => fallback
  | some s => if s == "" then fallback else s

/-! ## The orchestration pipeline -/

/-- The one field of a `GenerateContentResponse` the code reads; `none`
models a response whose `text` is `undefined`. -/
structure GenerateContentResponse where
  text : Option String
deriving DecidableEq, Repr

/-- Deterministic double for everything outside the function: the ambient
credential and the outcome each of the two `generateContent` calls would
have, the error side carrying the thrown error message (possibly
`undefined`). -/
structure ServiceEnv where
  apiKey : Option String
  analysisResult : Except (Option String) GenerateContentResponse
  generationResult : Except (Option String) GenerateContentResponse

/-- Requests and side effects the pipeline performs, in order. -/
inductive RequestPart where
  | text (s : String)
  | image (p : ImagePart)
deriving DecidableEq, Repr

inductive Event where
  | analysisCall (parts : List RequestPart)
  | generationCall (prompt : String)
  | openSelectKey
deriving DecidableEq, Repr

/-- Errors thrown out of the pipeline: a constructed `Error` with its
message, or the raw `FileReader` rejection value (a `ProgressEvent`, no
`message`). -/
inductive PipelineError where
  | jsError (message : Option String)
  | readError (raw : String)
deriving DecidableEq, Repr

/-- `getGeminiClient` (`Spinner.tsx:26`): throws when `process.env.API_KEY`
is falsy, otherwise yields a client. -/
def getGeminiClient (apiKey : Option String) : Except PipelineError Unit :=
  if strFalsy apiKey then
    .error (.jsError (some "API_KEY is not defined in the environment variables."))
  else .ok ()

/-- `analysisResponse.text || "No specific insights extracted from images."`. -/
def textOrFallback (t : Option String) : String :=
  match t with
  | none => "No specific insights extracted from images."
  | some s => if s == "" then "No specific insights extracted from images." else s

/-- `partsForAnalysis`: the analysis prompt text part followed by the encoded
image parts, in their order. -/
def analysisParts (settings : ExamSettings) (imageParts : List ImagePart) : List RequestPart :=
  .text (analysisPrompt settings) :: imageParts.map .image

/-- `analyzeImagesAndGenerateQuestions` (`Spinner.tsx:33`): the full
orchestration, returning the trace of issued requests and side effects
together with the returned `generationResponse.text` (possibly `undefined`)
or the thrown error. -/
def analyzeImagesAndGenerateQuestions (env : ServiceEnv) (images : List FileBlob)
    (settings : ExamSettings) : List Event × Except PipelineError (Option String) :=
  match getGeminiClient env.apiKey with
  | .error e => ([], .error e)
  | .ok _ =>
    match encodeImages images with
    | .error e => ([], .error (.readError e))
    | .ok imageParts =>
      let requestA := Event.analysisCall (analysisParts settings imageParts)
      match env.analysisResult with
      | .error _ =>
          ([requestA], .error (.jsError (some "Failed to analyze images. Please try again.")))
      | .ok analysisResponse =>
          let analysisSummary := textOrFallback analysisResponse.text
          let requestB := Event.generationCall (generationPrompt settings analysisSummary)
          match env.generationResult with
          | .error error =>
              if messageIncludes error "Requested entity was not found." then
                ([requestA, requestB, Event.openSelectKey],
                 .error (.jsError (some "API key might be invalid or not selected. Please select a valid key.")))
              else
                ([requestA, requestB],
                 .error (.jsError (some (messageOr error "Failed to generate questions. Please check your prompt or try again."))))
          | .ok generationResponse =>
              ([requestA, requestB], .ok generationResponse.text)

/-! ## The application shell (`src/unnamed/part_000`) -/

/-- `GeneratedExam` from `src/types.ts`; `htmlContent` holds whatever string
the service returned. -/
structure GeneratedExam where
  htmlContent : Option String
deriving DecidableEq, Repr

/-- The pieces of `App` component state that `generateExam` touches. -/
structure AppState where
  errorMsg : Option String
  loading : Bool
  generatedExam : Option GeneratedExam
  showApiKeyPrompt : Bool
deriving DecidableEq, Repr

/-- The `err.message` the catch block of `generateExam` observes: a
constructed error carries its message, a `FileReader` rejection carries
none. -/
def PipelineError.jsMessage : PipelineError → Option String
  | .jsError m => m
  | .readError _ => none

/-- `generateExam` from the `App` component (`src/unnamed/part_000:80`), with
the orchestration function abstracted as `core`.  (For an empty message,
`includes` of the nonempty key pattern is false either way, so
`messageIncludes` coincides with the `err.message.includes(...)` of the
source on every error the model produces.) -/
def generateExam (core : List FileBlob → ExamSettings → Except PipelineError (Option String))
    (uploadedImages : List FileBlob) (settings : ExamSettings) (st : AppState) : AppState :=
  let st1 : AppState := { st with errorMsg := none, loading := true, generatedExam := none }
  if uploadedImages.length = 0 then
    { st1 with errorMsg := some "Please upload at least one image.", loading := false }
  else
    match core uploadedImages settings with
    | .ok examContent =>
        { st1 with generatedExam := some ⟨examContent⟩, loading := false }
    | .error err =>
        let st2 := if messageIncludes err.jsMessage "API key might be invalid"
          then { st1 with showApiKeyPrompt := true } else st1
        { st2 with
            errorMsg := some (messageOr err.jsMessage "An unexpected error occurred during exam generation."),
            loading := false }

/-! ## Supporting lemmas -/

theorem toList_append (s t : String) : (s ++ t).toList = s.toList ++ t.toList := rfl

theorem toList_mk (l : List Char) : (String.mk l).toList = l := rfl

/-- The fallback summary, and the constant messages of the error mapping. -/
def fallbackSummary : String := "No specific insights extracted from images."

theorem textOrFallback_of_falsy (t : Option String) (h : strFalsy t = true) :
    textOrFallback t = fallbackSummary := by
  match t with
  | none => rfl
  | some s =>
      simp only [strFalsy] at h
      simp [textOrFallback, h, fallbackSummary]

theorem textOrFallback_ne_empty (t : Option String) : textOrFallback t ≠ "" := by
  match t with
  | none => decide
  | some s =>
      cases hb : (s == "") with
      | true => simp [textOrFallback, hb, fallbackSummary]
      | false =>
          have hne : s ≠ "" := by simpa using hb
          simp [textOrFallback, hb, hne]

/-- Not the openSelectKey side effect. -/
def isOpenSelectKey : Event → Bool
  | .openSelectKey => true
  | _ => false

theorem encodeOneImage_of_ok (f : FileBlob) (bytes : List Nat) (hc : f.content = .ok bytes) :
    ∃ p, encodeOneImage f = .ok p :=
  ⟨⟨⟨f.type, String.mk ((splitOnComma (dataUrlChars f.type bytes)).getD 1 [])⟩⟩, by
    simp [encodeOneImage, hc]⟩

theorem encodeImages_error_of_firstReadError (images : List FileBlob) (e : String)
    (h : firstReadError images = some e) : encodeImages images = .error e := by
  induction images with
  | nil => simp [firstReadError] at h
  | cons f fs ih =>
      cases hc : f.content with
      | error e0 =>
          simp only [firstReadError, hc] at h
          cases h
          simp [encodeImages, encodeOneImage, hc]
      | ok bytes =>
          simp only [firstReadError, hc] at h
          obtain ⟨p, hp⟩ := encodeOneImage_of_ok f bytes hc
          simp [encodeImages, hp, ih h]

/-! Branch-by-branch evaluation equations for the pipeline. -/

theorem pipeline_eq_apiKeyMissing (k : Option String)
    (ar gr : Except (Option String) GenerateContentResponse)
    (images : List FileBlob) (settings : ExamSettings) (hkey : strFalsy k = true) :
    analyzeImagesAndGenerateQuestions ⟨k, ar, gr⟩ images settings =
      ([], .error (.jsError (some "API_KEY is not defined in the environment variables."))) := by
  unfold analyzeImagesAndGenerateQuestions
  simp [getGeminiClient, hkey]

theorem pipeline_eq_readError (k : Option String)
    (ar gr : Except (Option String) GenerateContentResponse)
    (images : List FileBlob) (settings : ExamSettings) (e : String)
    (hkey : strFalsy k = false) (henc : encodeImages images = .error e) :
    analyzeImagesAndGenerateQuestions ⟨k, ar, gr⟩ images settings =
      ([], .error (.readError e)) := by
  unfold analyzeImagesAndGenerateQuestions
  simp [getGeminiClient, hkey, henc]

theorem pipeline_eq_analysisError (k : Option String) (m : Option String)
    (gr : Except (Option String) GenerateContentResponse)
    (images : List FileBlob) (settings : ExamSettings) (parts : List ImagePart)
    (hkey : strFalsy k = false) (henc : encodeImages images = .ok parts) :
    analyzeImagesAndGenerateQuestions ⟨k, .error m, gr⟩ images settings =
      ([Event.analysisCall (analysisParts settings parts)],
       .error (.jsError (some "Failed to analyze images. Please try again."))) := by
  unfold analyzeImagesAndGenerateQuestions
  simp [getGeminiClient, hkey, henc]

theorem pipeline_eq_genError_key (k : Option String) (aresp : GenerateContentResponse)
    (e : Option String) (images : List FileBlob) (settings : ExamSettings)
    (parts : List ImagePart)
    (hkey : strFalsy k = false) (henc : encodeImages images = .ok parts)
    (hm : messageIncludes e "Requested entity was not found." = true) :
    analyzeImagesAndGenerateQuestions ⟨k, .ok aresp, .error e⟩ images settings =
      ([Event.analysisCall (analysisParts settings parts),
        Event.generationCall (generationPrompt settings (textOrFallback aresp.text)),
        Event.openSelectKey],
       .error (.jsError
         (some "API key might be invalid or not selected. Please select a valid key."))) := by
  unfold analyzeImagesAndGenerateQuestions
  simp [getGeminiClient, hkey, henc, hm]

theorem pipeline_eq_genError_other (k : Option String) (aresp : GenerateContentResponse)
    (e : Option String) (images : List FileBlob) (settings : ExamSettings)
    (parts : List ImagePart)
    (hkey : strFalsy k = false) (henc : encodeImages images = .ok parts)
    (hm : messageIncludes e "Requested entity was not found." = false) :
    analyzeImagesAndGenerateQuestions ⟨k, .ok aresp, .error e⟩ images settings =
      ([Event.analysisCall (analysisParts settings parts),
        Event.generationCall (generationPrompt settings (textOrFallback aresp.text))],
       .error (.jsError
         (some (messageOr e
            "Failed to generate questions. Please check your prompt or try again.")))) := by
  unfold analyzeImagesAndGenerateQuestions
  simp [getGeminiClient, hkey, henc, hm]

theorem pipeline_eq_genOk (k : Option String) (aresp gresp : GenerateContentResponse)
    (images : List FileBlob) (settings : ExamSettings) (parts : List ImagePart)
    (hkey : strFalsy k = false) (henc : encodeImages images = .ok parts) :
    analyzeImagesAndGenerateQuestions ⟨k, .ok aresp, .ok gresp⟩ images settings =
      ([Event.analysisCall (analysisParts settings parts),
        Event.generationCall (generationPrompt settings (textOrFallback aresp.text))],
       .ok gresp.text) := by
  unfold analyzeImagesAndGenerateQuestions
  simp [getGeminiClient, hkey, henc]

/-- Every trace the pipeline can produce. -/
theorem pipeline_trace_shapes (env : ServiceEnv) (images : List FileBlob)
    (settings : ExamSettings) :
    (analyzeImagesAndGenerateQuestions env images settings).1 = [] ∨
    (∃ a, (analyzeImagesAndGenerateQuestions env images settings).1 = [Event.analysisCall a]) ∨
    (∃ a p, (analyzeImagesAndGenerateQuestions env images settings).1 =
        [Event.analysisCall a, Event.generationCall p]) ∨
    (∃ a p, (analyzeImagesAndGenerateQuestions env images settings).1 =
        [Event.analysisCall a, Event.generationCall p, Event.openSelectKey]) := by
  obtain ⟨k, ar, gr⟩ := env
  cases hkey : strFalsy k with
  | true => rw [pipeline_eq_apiKeyMissing k ar gr images settings hkey]; simp
  | false =>
      cases henc : encodeImages images with
      | error e => rw [pipeline_eq_readError k ar gr images settings e hkey henc]; simp
      | ok parts =>
          cases ar with
          | error m =>
              rw [pipeline_eq_analysisError k m gr images settings parts hkey henc]
              simp
          | ok aresp =>
              cases gr with
              | error e =>
                  cases hm : messageIncludes e "Requested entity was not found." with
                  | true =>
                      rw [pipeline_eq_genError_key k aresp e images settings parts hkey henc hm]
                      simp
                  | false =>
                      rw [pipeline_eq_genError_other k aresp e images settings parts hkey henc hm]
                      simp
              | ok gresp =>
                  rw [pipeline_eq_genOk k aresp gresp images settings parts hkey henc]
                  simp

theorem substrOf_self (pat : String) : substrOf pat pat :=
  ⟨[], [], by simp⟩

theorem substrOf_left (pat s t : String) (h : substrOf pat s) : substrOf pat (s ++ t) := by
  obtain ⟨pre, post, hs⟩ := h
  exact ⟨pre, post ++ t.toList, by rw [toList_append, hs]; simp [List.append_assoc]⟩

theorem substrOf_right (pat s t : String) (h : substrOf pat t) : substrOf pat (s ++ t) := by
  obtain ⟨pre, post, ht⟩ := h
  exact ⟨s.toList ++ pre, post, by rw [toList_append, ht]; simp [List.append_assoc]⟩

theorem generationPrompt_has_mcq (settings : ExamSettings) (summary : String) :
    substrOf ("exactly " ++ toString settings.mcqCount ++ " Multiple Choice Questions")
      (generationPrompt settings summary) := by
  unfold generationPrompt
  iterate 7 apply substrOf_left
  apply substrOf_right
  exact substrOf_self _

theorem generationPrompt_has_short (settings : ExamSettings) (summary : String) :
    substrOf ("exactly " ++ toString settings.shortCount ++ " Short Answer Questions")
      (generationPrompt settings summary) := by
  unfold generationPrompt
  iterate 5 apply substrOf_left
  apply substrOf_right
  exact substrOf_self _

theorem generationPrompt_has_long (settings : ExamSettings) (summary : String) :
    substrOf ("exactly " ++ toString settings.longCount ++ " Long Answer Questions")
      (generationPrompt settings summary) := by
  unfold generationPrompt
  iterate 3 apply substrOf_left
  apply substrOf_right
  exact substrOf_self _

theorem generationPrompt_has_language (settings : ExamSettings) (summary : String) :
    substrOf ("Use the specified language: " ++ settings.language)
      (generationPrompt settings summary) := by
  unfold generationPrompt
  iterate 1 apply substrOf_left
  apply substrOf_right
  exact substrOf_self _

theorem generationPrompt_has_summary (settings : ExamSettings) (summary : String) :
    substrOf summary (generationPrompt settings summary) := by
  unfold generationPrompt
  iterate 9 apply substrOf_left
  apply substrOf_right
  exact substrOf_self _

theorem generationCall_mem_pair (p q : String) (a : List RequestPart)
    (h : Event.generationCall p ∈ [Event.analysisCall a, Event.generationCall q]) :
    p = q := by
  cases h with
  | tail _ h2 =>
      cases h2 with
      | head => rfl
      | tail _ h3 => cases h3

theorem generationCall_mem_triple (p q : String) (a : List RequestPart)
    (h : Event.generationCall p ∈
      [Event.analysisCall a, Event.generationCall q, Event.openSelectKey]) :
    p = q := by
  cases h with
  | tail _ h2 =>
      cases h2 with
      | head => rfl
      | tail _ h3 =>
          cases h3 with
          | tail _ h4 => cases h4

theorem generationCall_not_mem_single (p : String) (a : List RequestPart)
    (h : Event.generationCall p ∈ [Event.analysisCall a]) : False := by
  cases h with
  | tail _ h2 => cases h2

/-- Any issued composition prompt is the generation template over the
(nonempty) summary derived from a resolved analysis response. -/
theorem generationCall_mem_inv (env : ServiceEnv) (images : List FileBlob)
    (settings : ExamSettings) (p : String)
    (h : Event.generationCall p ∈ (analyzeImagesAndGenerateQuestions env images settings).1) :
    ∃ aresp, env.analysisResult = .ok aresp ∧
      p = generationPrompt settings (textOrFallback aresp.text) := by
  obtain ⟨k, ar, gr⟩ := env
  cases hkey : strFalsy k with
  | true =>
      rw [pipeline_eq_apiKeyMissing k ar gr images settings hkey] at h
      cases h
  | false =>
      cases henc : encodeImages images with
      | error e =>
          rw [pipeline_eq_readError k ar gr images settings e hkey henc] at h
          cases h
      | ok parts =>
          cases ar with
          | error m =>
              rw [pipeline_eq_analysisError k m gr images settings parts hkey henc] at h
              exact absurd h (fun hm => generationCall_not_mem_single p _ hm)
          | ok aresp =>
              refine ⟨aresp, rfl, ?_⟩
              cases gr with
              | error e =>
                  cases hm : messageIncludes e "Requested entity was not found." with
                  | true =>
                      rw [pipeline_eq_genError_key k aresp e images settings parts hkey henc hm] at h
                      exact generationCall_mem_triple p _ _ h
                  | false =>
                      rw [pipeline_eq_genError_other k aresp e images settings parts hkey henc hm] at h
                      exact generationCall_mem_pair p _ _ h
              | ok gresp =>
                  rw [pipeline_eq_genOk k aresp gresp images settings parts hkey henc] at h
                  exact generationCall_mem_pair p _ _ h

/-- The per-blob contract of the Image Encoder: the part carries the blob's
MIME type and the base64 transcription of its bytes, and decoding the
carried payload reproduces those bytes. -/
def EncodedMatches (f : FileBlob) (p : ImagePart) : Prop :=
  ∃ bs, f.content = .ok bs ∧ p.inlineData.mimeType = f.type ∧
    p.inlineData.data = String.mk (base64EncodeL bs) ∧
    base64DecodeL p.inlineData.data.toList = some bs

theorem encodeImages_ok_all (images : List FileBlob)
    (h : ∀ f ∈ images, (∃ bs, f.content = .ok bs ∧ ∀ b ∈ bs, b < 256) ∧ ',' ∉ f.type.toList) :
    ∃ parts, encodeImages images = .ok parts ∧ List.Forall₂ EncodedMatches images parts := by
  induction images with
  | nil => exact ⟨[], rfl, List.Forall₂.nil⟩
  | cons f fs ih =>
      obtain ⟨⟨bs, hc, hbs⟩, ht⟩ := h f (List.mem_cons_self f fs)
      obtain ⟨parts, henc, hall⟩ := ih (fun g hg => h g (List.mem_cons_of_mem f hg))
      refine ⟨⟨⟨f.type, String.mk (base64EncodeL bs)⟩⟩ :: parts, ?_, ?_⟩
      · simp [encodeImages, encodeOneImage_ok f bs hc ht, henc]
      · refine List.Forall₂.cons ⟨bs, hc, rfl, rfl, ?_⟩ hall
        rw [toList_mk]
        exact base64_decode_encode bs hbs

/-! ## The claims -/

/-- Claim C1: every composition prompt the pipeline sends contains the
literal instructions `exactly <mcqCount> Multiple Choice Questions`,
`exactly <shortCount> Short Answer Questions` and
`exactly <longCount> Long Answer Questions` with the settings' integer
counts interpolated (zero included, since the counts are universally
quantified and no section is omitted), and mentions `settings.language` as
the required output language. -/
theorem composition_prompt_has_count_instructions (env : ServiceEnv)
    (images : List FileBlob) (settings : ExamSettings) (p : String)
    (h : Event.generationCall p ∈ (analyzeImagesAndGenerateQuestions env images settings).1) :
    substrOf ("exactly " ++ toString settings.mcqCount ++ " Multiple Choice Questions") p ∧
    substrOf ("exactly " ++ toString settings.shortCount ++ " Short Answer Questions") p ∧
    substrOf ("exactly " ++ toString settings.longCount ++ " Long Answer Questions") p ∧
    substrOf ("Use the specified language: " ++ settings.language) p := by
  obtain ⟨aresp, -, hp⟩ := generationCall_mem_inv env images settings p h
  subst hp
  exact ⟨generationPrompt_has_mcq _ _, generationPrompt_has_short _ _,
    generationPrompt_has_long _ _, generationPrompt_has_language _ _⟩

/-- Claim C2: when the analysis call succeeds but its `text` is falsy (empty
or `undefined`), the pipeline issues the composition request with the
literal fallback summary, and every composition request it ever issues is
the generation template over a nonempty summary. -/
theorem analysis_empty_text_fallback (env : ServiceEnv) (images : List FileBlob)
    (settings : ExamSettings) (parts : List ImagePart) (aresp : GenerateContentResponse)
    (hkey : strFalsy env.apiKey = false)
    (henc : encodeImages images = .ok parts)
    (hana : env.analysisResult = .ok aresp)
    (hempty : strFalsy aresp.text = true) :
    Event.generationCall (generationPrompt settings fallbackSummary)
        ∈ (analyzeImagesAndGenerateQuestions env images settings).1 ∧
    ∀ q, Event.generationCall q ∈ (analyzeImagesAndGenerateQuestions env images settings).1 →
      ∃ s, s ≠ "" ∧ q = generationPrompt settings s := by
  obtain ⟨k, ar, gr⟩ := env
  have hkey' : strFalsy k = false := hkey
  have hana' : ar = .ok aresp := hana
  subst hana'
  constructor
  · rw [← textOrFallback_of_falsy aresp.text hempty]
    cases gr with
    | error e =>
        cases hm : messageIncludes e "Requested entity was not found." with
        | true =>
            rw [pipeline_eq_genError_key k aresp e images settings parts hkey' henc hm]
            exact List.mem_cons_of_mem _ (List.mem_cons_self _ _)
        | false =>
            rw [pipeline_eq_genError_other k aresp e images settings parts hkey' henc hm]
            exact List.mem_cons_of_mem _ (List.mem_cons_self _ _)
    | ok gresp =>
        rw [pipeline_eq_genOk k aresp gresp images settings parts hkey' henc]
        exact List.mem_cons_of_mem _ (List.mem_cons_self _ _)
  · intro q hq
    obtain ⟨aresp2, -, hq2⟩ := generationCall_mem_inv ⟨k, .ok aresp, gr⟩ images settings q hq
    exact ⟨textOrFallback aresp2.text, textOrFallback_ne_empty _, hq2⟩

/-- Claim C3: the composition request is strictly sequential after the
analysis request: any composition-call event in the trace is preceded by an
analysis-call event at an earlier position, and its presence entails that
the analysis call resolved successfully. -/
theorem composition_strictly_after_analysis (env : ServiceEnv) (images : List FileBlob)
    (settings : ExamSettings) (i : Nat) (p : String)
    (h : (analyzeImagesAndGenerateQuestions env images settings).1[i]? =
      some (Event.generationCall p)) :
    (∃ j, j < i ∧ ∃ parts, (analyzeImagesAndGenerateQuestions env images settings).1[j]? =
        some (Event.analysisCall parts)) ∧
    ∃ aresp, env.analysisResult = .ok aresp := by
  have hmem : Event.generationCall p ∈ (analyzeImagesAndGenerateQuestions env images settings).1 := by
    exact List.getElem?_mem h
  obtain ⟨aresp, haresp, -⟩ := generationCall_mem_inv env images settings p hmem
  refine ⟨?_, aresp, haresp⟩
  rcases pipeline_trace_shapes env images settings with h0 | ⟨a, h1⟩ | ⟨a, q, h2⟩ | ⟨a, q, h3⟩
  · rw [h0] at h; simp at h
  · rw [h1] at h
    match i with
    | 0 => simp at h
    | n + 1 => simp at h
  · rw [h2] at h ⊢
    match i with
    | 0 => simp at h
    | 1 => exact ⟨0, by omega, a, rfl⟩
    | n + 2 => simp at h
  · rw [h3] at h ⊢
    match i with
    | 0 => simp at h
    | 1 => exact ⟨0, by omega, a, rfl⟩
    | 2 => simp at h
    | n + 3 => simp at h

/-- Claim C4: for a non-empty batch whose reads all succeed (with genuine
bytes and comma-free MIME types), the Encoder yields exactly one part per
blob, in order, carrying the blob's MIME type and a base64 payload whose
decoding reproduces the blob's bytes. -/
theorem encoder_preserves_order_mime_and_bytes (images : List FileBlob)
    (_hne : images ≠ [])
    (h : ∀ f ∈ images, (∃ bs, f.content = .ok bs ∧ ∀ b ∈ bs, b < 256) ∧ ',' ∉ f.type.toList) :
    ∃ parts, encodeImages images = .ok parts ∧ parts.length = images.length ∧
      List.Forall₂ EncodedMatches images parts := by
  obtain ⟨parts, henc, hall⟩ := encodeImages_ok_all images h
  exact ⟨parts, henc, (List.Forall₂.length_eq hall).symm, hall⟩

/-- Claim C5: on a composition failure whose message contains
`Requested entity was not found.` the trace holds exactly one
`openSelectKey` side effect and the surfaced message is the fixed key
message (the original discarded); on any other composition failure no
`openSelectKey` occurs and the surfaced message is the underlying message
verbatim, or the generic fallback when the message is absent or empty. -/
theorem composition_failure_error_mapping (env : ServiceEnv) (images : List FileBlob)
    (settings : ExamSettings) (parts : List ImagePart) (aresp : GenerateContentResponse)
    (e : Option String)
    (hkey : strFalsy env.apiKey = false)
    (henc : encodeImages images = .ok parts)
    (hana : env.analysisResult = .ok aresp)
    (hgen : env.generationResult = .error e) :
    (messageIncludes e "Requested entity was not found." = true →
      (analyzeImagesAndGenerateQuestions env images settings).1.countP isOpenSelectKey = 1 ∧
      (analyzeImagesAndGenerateQuestions env images settings).2 =
        .error (.jsError
          (some "API key might be invalid or not selected. Please select a valid key."))) ∧
    (messageIncludes e "Requested entity was not found." = false →
      (analyzeImagesAndGenerateQuestions env images settings).1.countP isOpenSelectKey = 0 ∧
      (analyzeImagesAndGenerateQuestions env images settings).2 =
        .error (.jsError
          (some (messageOr e
            "Failed to generate questions. Please check your prompt or try again.")))) := by
  obtain ⟨k, ar, gr⟩ := env
  have hkey' : strFalsy k = false := hkey
  have hana' : ar = .ok aresp := hana
  have hgen' : gr = .error e := hgen
  subst hana'
  subst hgen'
  constructor
  · intro hm
    rw [pipeline_eq_genError_key k aresp e images settings parts hkey' henc hm]
    exact ⟨rfl, rfl⟩
  · intro hm
    rw [pipeline_eq_genError_other k aresp e images settings parts hkey' henc hm]
    exact ⟨rfl, rfl⟩

/-- Claim C6: any analysis-service failure, whatever its message, is
surfaced as exactly `Failed to analyze images. Please try again.`; the
underlying message `m` does not appear in the result. -/
theorem analysis_failure_generic_message (env : ServiceEnv) (images : List FileBlob)
    (settings : ExamSettings) (parts : List ImagePart) (m : Option String)
    (hkey : strFalsy env.apiKey = false)
    (henc : encodeImages images = .ok parts)
    (hana : env.analysisResult = .error m) :
    (analyzeImagesAndGenerateQuestions env images settings).2 =
      .error (.jsError (some "Failed to analyze images. Please try again.")) := by
  obtain ⟨k, ar, gr⟩ := env
  have hkey' : strFalsy k = false := hkey
  have hana' : ar = .error m := hana
  subst hana'
  rw [pipeline_eq_analysisError k m gr images settings parts hkey' henc]

/-- Claim C7: if any blob's read fails, the Encoder fails as a whole with
the first read error and no partial list, and the pipeline (under a present
credential) surfaces exactly that raw error with an empty trace: the
analysis request is never issued with a partial batch. -/
theorem read_failure_aborts_batch (images : List FileBlob) (e : String)
    (hfail : firstReadError images = some e) :
    encodeImages images = .error e ∧
    ∀ env settings, strFalsy env.apiKey = false →
      analyzeImagesAndGenerateQuestions env images settings =
        ([], .error (.readError e)) := by
  have henc := encodeImages_error_of_firstReadError images e hfail
  refine ⟨henc, ?_⟩
  intro env settings hkey
  obtain ⟨k, ar, gr⟩ := env
  exact pipeline_eq_readError k ar gr images settings e hkey henc

/-- Claim C8: on composition success the pipeline returns the response's
`text` field unmodified: no parsing, no count check, and no fallback even
when the text is empty or `undefined` (the field is arbitrary here). -/
theorem composition_success_returns_raw_text (env : ServiceEnv) (images : List FileBlob)
    (settings : ExamSettings) (parts : List ImagePart)
    (aresp gresp : GenerateContentResponse)
    (hkey : strFalsy env.apiKey = false)
    (henc : encodeImages images = .ok parts)
    (hana : env.analysisResult = .ok aresp)
    (hgen : env.generationResult = .ok gresp) :
    (analyzeImagesAndGenerateQuestions env images settings).2 = .ok gresp.text := by
  obtain ⟨k, ar, gr⟩ := env
  have hkey' : strFalsy k = false := hkey
  have hana' : ar = .ok aresp := hana
  have hgen' : gr = .ok gresp := hgen
  subst hana'
  subst hgen'
  rw [pipeline_eq_genOk k aresp gresp images settings parts hkey' henc]

/-- Claim C9: with the ambient `API_KEY` absent, client construction fails
with the `API_KEY is not defined` error and the pipeline returns that error
with an empty trace for every image list whatsoever, so it fails before any
image is encoded and before any network request is issued. -/
theorem missing_api_key_fails_before_requests (env : ServiceEnv) (images : List FileBlob)
    (settings : ExamSettings) (hkey : env.apiKey = none) :
    getGeminiClient env.apiKey =
      .error (.jsError (some "API_KEY is not defined in the environment variables.")) ∧
    analyzeImagesAndGenerateQuestions env images settings =
      ([], .error (.jsError (some "API_KEY is not defined in the environment variables."))) ∧
    substrOf "API_KEY is not defined"
      "API_KEY is not defined in the environment variables." := by
  obtain ⟨k, ar, gr⟩ := env
  have hk : k = none := hkey
  subst hk
  refine ⟨rfl, pipeline_eq_apiKeyMissing none ar gr images settings rfl, ?_⟩
  exact ⟨[], " in the environment variables.".toList, by decide⟩

/-- Claim C10: with an empty uploaded-image list, the `App`-level
`generateExam` handler sets the error message
`Please upload at least one image.` and finishes without invoking the
orchestration function: its result is a fixed state independent of the
orchestration function passed in. -/
theorem empty_upload_guard
    (core core2 : List FileBlob → ExamSettings → Except PipelineError (Option String))
    (images : List FileBlob) (settings : ExamSettings) (st : AppState)
    (h : images.length = 0) :
    generateExam core images settings st =
      { st with errorMsg := some "Please upload at least one image.",
                loading := false, generatedExam := none } ∧
    generateExam core images settings st = generateExam core2 images settings st := by
  constructor
  · simp [generateExam, h]
  · simp [generateExam, h]

/-! ## Concrete inputs for the witnesses -/

/-- The default settings of the application shell. -/
def settings0 : ExamSettings :=
  { topic := "Biology - Cell Structure", className := "Grade 9", board := "CBSE",
    studentName := "", language := "English", totalMarks := 50, duration := 60,
    mcqCount := 5, shortCount := 3, longCount := 2 }

/-- A blob holding the four PNG magic bytes. -/
def file0 : FileBlob := { type := "image/png", content := .ok [137, 80, 78, 71] }

/-- A blob whose read fails. -/
def fileBad : FileBlob := { type := "image/png", content := .error "read aborted" }

/-- The encoded part for `file0`. -/
def part0 : ImagePart := ⟨⟨"image/png", "iVBORw=="⟩⟩

def env0 : ServiceEnv :=
  ⟨some "key", .ok ⟨some "summary text"⟩, .ok ⟨some "exam text"⟩⟩

def envEmptyText : ServiceEnv :=
  ⟨some "key", .ok ⟨some ""⟩, .ok ⟨some "exam text"⟩⟩

def envAnalysisFail : ServiceEnv :=
  ⟨some "key", .error (some "network down"), .ok ⟨some "exam text"⟩⟩

def envKeyErr : ServiceEnv :=
  ⟨some "key", .ok ⟨some "summary text"⟩, .error (some "Requested entity was not found.")⟩

def envGenEmpty : ServiceEnv :=
  ⟨some "key", .ok ⟨some "summary text"⟩, .ok ⟨some ""⟩⟩

def envNoKey : ServiceEnv :=
  ⟨none, .ok ⟨some "summary text"⟩, .ok ⟨some "exam text"⟩⟩

def coreOk : List FileBlob → ExamSettings → Except PipelineError (Option String) :=
  fun _ _ => .ok (some "generated exam")

def coreErr : List FileBlob → ExamSettings → Except PipelineError (Option String) :=
  fun _ _ => .error (.jsError (some "boom"))

def appState0 : AppState := ⟨none, false, none, false⟩

/-- Witness for C1 at a concrete invocation. -/
theorem composition_prompt_has_count_instructions_witness :
    (Event.generationCall (generationPrompt settings0 "summary text")
        ∈ (analyzeImagesAndGenerateQuestions env0 [file0] settings0).1) ∧
    (substrOf ("exactly " ++ toString settings0.mcqCount ++ " Multiple Choice Questions")
        (generationPrompt settings0 "summary text") ∧
     substrOf ("exactly " ++ toString settings0.shortCount ++ " Short Answer Questions")
        (generationPrompt settings0 "summary text") ∧
     substrOf ("exactly " ++ toString settings0.longCount ++ " Long Answer Questions")
        (generationPrompt settings0 "summary text") ∧
     substrOf ("Use the specified language: " ++ settings0.language)
        (generationPrompt settings0 "summary text")) :=
  have hmem : Event.generationCall (generationPrompt settings0 "summary text")
      ∈ (analyzeImagesAndGenerateQuestions env0 [file0] settings0).1 := by
    have henc : encodeImages [file0] = .ok [part0] := rfl
    have hpe := pipeline_eq_genOk (some "key") ⟨some "summary text"⟩ ⟨some "exam text"⟩
      [file0] settings0 [part0] rfl henc
    rw [show env0 = (⟨some "key", .ok ⟨some "summary text"⟩,
        .ok ⟨some "exam text"⟩⟩ : ServiceEnv) from rfl, hpe]
    rw [show textOrFallback (some "summary text") = "summary text" from rfl]
    exact List.mem_cons_of_mem _ (List.mem_cons_self _ _)
  ⟨hmem, composition_prompt_has_count_instructions env0 [file0] settings0 _ hmem⟩

/-- Witness for C2 at a concrete invocation with an empty analysis text. -/
theorem analysis_empty_text_fallback_witness :
    (strFalsy envEmptyText.apiKey = false ∧ encodeImages [file0] = .ok [part0] ∧
     envEmptyText.analysisResult = .ok ⟨some ""⟩ ∧
     strFalsy (GenerateContentResponse.mk (some "")).text = true) ∧
    (Event.generationCall (generationPrompt settings0 fallbackSummary)
        ∈ (analyzeImagesAndGenerateQuestions envEmptyText [file0] settings0).1 ∧
     ∀ q, Event.generationCall q
        ∈ (analyzeImagesAndGenerateQuestions envEmptyText [file0] settings0).1 →
       ∃ s, s ≠ "" ∧ q = generationPrompt settings0 s) :=
  ⟨⟨rfl, rfl, rfl, rfl⟩,
   analysis_empty_text_fallback envEmptyText [file0] settings0 [part0] ⟨some ""⟩
     rfl rfl rfl rfl⟩

/-- Witness for C3: at the concrete invocation the composition call sits at
index 1 and the analysis call strictly before it. -/
theorem composition_strictly_after_analysis_witness :
    ((analyzeImagesAndGenerateQuestions env0 [file0] settings0).1[1]? =
      some (Event.generationCall (generationPrompt settings0 "summary text"))) ∧
    ((∃ j, j < 1 ∧ ∃ parts, (analyzeImagesAndGenerateQuestions env0 [file0] settings0).1[j]? =
        some (Event.analysisCall parts)) ∧
     ∃ aresp, env0.analysisResult = .ok aresp) :=
  have h : (analyzeImagesAndGenerateQuestions env0 [file0] settings0).1[1]? =
      some (Event.generationCall (generationPrompt settings0 "summary text")) := by
    have henc : encodeImages [file0] = .ok [part0] := rfl
    have hpe := pipeline_eq_genOk (some "key") ⟨some "summary text"⟩ ⟨some "exam text"⟩
      [file0] settings0 [part0] rfl henc
    rw [show env0 = (⟨some "key", .ok ⟨some "summary text"⟩,
        .ok ⟨some "exam text"⟩⟩ : ServiceEnv) from rfl, hpe]
    rw [show textOrFallback (some "summary text") = "summary text" from rfl]
    rfl
  ⟨h, composition_strictly_after_analysis env0 [file0] settings0 1
    (generationPrompt settings0 "summary text") h⟩

/-- Witness for C4 on a one-element batch of PNG magic bytes. -/
theorem encoder_preserves_order_mime_and_bytes_witness :
    (([file0] : List FileBlob) ≠ [] ∧
     ∀ f ∈ [file0], (∃ bs, f.content = .ok bs ∧ ∀ b ∈ bs, b < 256) ∧ ',' ∉ f.type.toList) ∧
    (∃ parts, encodeImages [file0] = .ok parts ∧
      parts.length = ([file0] : List FileBlob).length ∧
      List.Forall₂ EncodedMatches [file0] parts) := by
  have hne : ([file0] : List FileBlob) ≠ [] := by simp
  have h : ∀ f ∈ [file0],
      (∃ bs, f.content = .ok bs ∧ ∀ b ∈ bs, b < 256) ∧ ',' ∉ f.type.toList := by
    intro f hf
    rw [List.mem_singleton] at hf
    subst hf
    exact ⟨⟨[137, 80, 78, 71], rfl, by decide⟩, by decide⟩
  exact ⟨⟨hne, h⟩, encoder_preserves_order_mime_and_bytes [file0] hne h⟩

/-- Witness for C5 with a credential-shaped composition failure. -/
theorem composition_failure_error_mapping_witness :
    (strFalsy envKeyErr.apiKey = false ∧ encodeImages [file0] = .ok [part0] ∧
     envKeyErr.analysisResult = .ok ⟨some "summary text"⟩ ∧
     envKeyErr.generationResult = .error (some "Requested entity was not found.")) ∧
    ((messageIncludes (some "Requested entity was not found.")
        "Requested entity was not found." = true →
      (analyzeImagesAndGenerateQuestions envKeyErr [file0] settings0).1.countP
          isOpenSelectKey = 1 ∧
      (analyzeImagesAndGenerateQuestions envKeyErr [file0] settings0).2 =
        .error (.jsError
          (some "API key might be invalid or not selected. Please select a valid key."))) ∧
    (messageIncludes (some "Requested entity was not found.")
        "Requested entity was not found." = false →
      (analyzeImagesAndGenerateQuestions envKeyErr [file0] settings0).1.countP
          isOpenSelectKey = 0 ∧
      (analyzeImagesAndGenerateQuestions envKeyErr [file0] settings0).2 =
        .error (.jsError
          (some (messageOr (some "Requested entity was not found.")
            "Failed to generate questions. Please check your prompt or try again."))))) :=
  ⟨⟨rfl, rfl, rfl, rfl⟩,
   composition_failure_error_mapping envKeyErr [file0] settings0 [part0]
     ⟨some "summary text"⟩ (some "Requested entity was not found.") rfl rfl rfl rfl⟩

/-- Witness for C6 with a failing analysis call. -/
theorem analysis_failure_generic_message_witness :
    (strFalsy envAnalysisFail.apiKey = false ∧ encodeImages [file0] = .ok [part0] ∧
     envAnalysisFail.analysisResult = .error (some "network down")) ∧
    (analyzeImagesAndGenerateQuestions envAnalysisFail [file0] settings0).2 =
      .error (.jsError (some "Failed to analyze images. Please try again.")) :=
  ⟨⟨rfl, rfl, rfl⟩,
   analysis_failure_generic_message envAnalysisFail [file0] settings0 [part0]
     (some "network down") rfl rfl rfl⟩

/-- Witness for C7 with a batch whose first blob fails to read. -/
theorem read_failure_aborts_batch_witness :
    (firstReadError [fileBad, file0] = some "read aborted") ∧
    (encodeImages [fileBad, file0] = .error "read aborted" ∧
     ∀ env settings, strFalsy env.apiKey = false →
       analyzeImagesAndGenerateQuestions env [fileBad, file0] settings =
         ([], .error (.readError "read aborted"))) :=
  ⟨rfl, read_failure_aborts_batch [fileBad, file0] "read aborted" rfl⟩

/-- Witness for C8: an empty composition text is returned as-is. -/
theorem composition_success_returns_raw_text_witness :
    (strFalsy envGenEmpty.apiKey = false ∧ encodeImages [file0] = .ok [part0] ∧
     envGenEmpty.analysisResult = .ok ⟨some "summary text"⟩ ∧
     envGenEmpty.generationResult = .ok ⟨some ""⟩) ∧
    (analyzeImagesAndGenerateQuestions envGenEmpty [file0] settings0).2 = .ok (some "") :=
  ⟨⟨rfl, rfl, rfl, rfl⟩,
   composition_success_returns_raw_text envGenEmpty [file0] settings0 [part0]
     ⟨some "summary text"⟩ ⟨some ""⟩ rfl rfl rfl rfl⟩

/-- Witness for C9: the credential check precedes everything, even a batch
whose read would fail. -/
theorem missing_api_key_fails_before_requests_witness :
    (envNoKey.apiKey = none) ∧
    (getGeminiClient envNoKey.apiKey =
      .error (.jsError (some "API_KEY is not defined in the environment variables.")) ∧
     analyzeImagesAndGenerateQuestions envNoKey [fileBad] settings0 =
      ([], .error (.jsError (some "API_KEY is not defined in the environment variables."))) ∧
     substrOf "API_KEY is not defined"
      "API_KEY is not defined in the environment variables.") :=
  ⟨rfl, missing_api_key_fails_before_requests envNoKey [fileBad] settings0 rfl⟩

/-- Witness for C10 with an empty upload list and two different cores. -/
theorem empty_upload_guard_witness :
    (([] : List FileBlob).length = 0) ∧
    (generateExam coreOk [] settings0 appState0 =
      { appState0 with errorMsg := some "Please upload at least one image.",
                       loading := false, generatedExam := none } ∧
     generateExam coreOk [] settings0 appState0 =
       generateExam coreErr [] settings0 appState0) :=
  ⟨rfl, empty_upload_guard coreOk coreErr [] settings0 appState0 rfl⟩

end ExamGen
